import Mathlib

/-!
Verification of the Metin2-X-API core logic: the password-compatibility
hasher (app/core/hashers.py), the authority hierarchy (app/core/security.py),
the admin-level resolver (app/crud/common.py), the request guards
(app/api/deps.py) and the pagination metadata of the listing routes
(app/api/routes/game.py, app/api/routes/guild.py), shallowly embedded in Lean.
-/

/-! ## Python value model

Values flowing through the authority logic are either Python ints (the
`mAuthority` column of `gmlist` is an SQLAlchemy `Integer`) or Python strings
(the level names of `AuthorityLevel`). Python equality never identifies an
int with a str, which `pyEq` reflects. -/

inductive PyVal where
  | int (n : Int)
  | str (s : String)
deriving DecidableEq, Repr

/-- Python `==` between dictionary keys: ints compare with ints, strings with
strings, and an int is never equal to a string. -/
def pyEq : PyVal → PyVal → Bool
  | .int a, .int b => a == b
  | .str a, .str b => a == b
  | _, _ => false

/-- Python `str()` of a value, as used by an f-string interpolation. -/
def PyVal.pyStr : PyVal → String
  | .int n => toString n
  | .str s => s

/-- Python `dict.get(key, default)` over an association list of keys. -/
def dictGet (m : List (PyVal × Nat)) (k : PyVal) (d : Nat) : Nat :=
  match m.find? (fun p => pyEq p.1 k) with
  | some p => p.2
  | none => d

/-! ## Password compatibility hasher (app/core/hashers.py)

`make_password` computes `("*" + sha1(sha1(raw.encode()).digest()).hexdigest()).upper()`.
We embed SHA-1 itself (FIPS 180-1, as implemented by hashlib) on byte lists,
with 32-bit words as `Nat` reduced mod 2^32. -/

/-- UTF-8 encoding of a single code point, the semantics of Python
`str.encode()` per character. -/
def utf8EncodeChar (c : Char) : List Nat :=
  let n := c.toNat
  if n < 128 then [n]
  else if n < 2048 then [192 ||| (n >>> 6), 128 ||| (n &&& 63)]
  else if n < 65536 then
    [224 ||| (n >>> 12), 128 ||| ((n >>> 6) &&& 63), 128 ||| (n &&& 63)]
  else
    [240 ||| (n >>> 18), 128 ||| ((n >>> 12) &&& 63),
     128 ||| ((n >>> 6) &&& 63), 128 ||| (n &&& 63)]

/-- UTF-8 encoding of a string: Python `raw_password.encode()`. -/
def utf8Encode (s : String) : List Nat :=
  s.data.flatMap utf8EncodeChar

/-- Truncation to a 32-bit word. -/
def w32 (x : Nat) : Nat := x % 4294967296

/-- Left rotation of a 32-bit word. -/
def rotl32 (x n : Nat) : Nat := w32 ((x <<< n) ||| (x >>> (32 - n)))

/-- SHA-1 round function for round `t`. -/
def sha1F (t b c d : Nat) : Nat :=
  if t < 20 then (b &&& c) ||| ((4294967295 ^^^ b) &&& d)
  else if t < 40 then b ^^^ c ^^^ d
  else if t < 60 then (b &&& c) ||| (b &&& d) ||| (c &&& d)
  else b ^^^ c ^^^ d

/-- SHA-1 round constant for round `t`. -/
def sha1K (t : Nat) : Nat :=
  if t < 20 then 1518500249
  else if t < 40 then 1859775393
  else if t < 60 then 2400959708
  else 3395469782

/-- Big-endian 8-byte rendering of the bit length. -/
def be64 (n : Nat) : List Nat :=
  [(n >>> 56) &&& 255, (n >>> 48) &&& 255, (n >>> 40) &&& 255, (n >>> 32) &&& 255,
   (n >>> 24) &&& 255, (n >>> 16) &&& 255, (n >>> 8) &&& 255, n &&& 255]

/-- Big-endian 4-byte rendering of a 32-bit word. -/
def be32 (n : Nat) : List Nat :=
  [(n >>> 24) &&& 255, (n >>> 16) &&& 255, (n >>> 8) &&& 255, n &&& 255]

/-- SHA-1 padding: append `0x80`, zeros to 56 mod 64, then the 64-bit
big-endian message bit length. -/
def sha1Pad (msg : List Nat) : List Nat :=
  msg ++ 128 :: List.replicate ((119 - msg.length % 64) % 64) 0 ++ be64 (8 * msg.length)

/-- Group a 64-byte block into sixteen big-endian 32-bit words. -/
def bytesToWords (l : List Nat) : List Nat :=
  (List.range (l.length / 4)).map (fun i =>
    ((l.getD (4 * i) 0) <<< 24) ||| ((l.getD (4 * i + 1) 0) <<< 16) |||
    ((l.getD (4 * i + 2) 0) <<< 8) ||| l.getD (4 * i + 3) 0)

/-- One step of the message-schedule expansion `w[t] = rotl1 (w[t-3] xor
w[t-8] xor w[t-14] xor w[t-16])`. -/
def sha1ExtendStep (w : List Nat) : List Nat :=
  w ++ [rotl32 ((w.getD (w.length - 3) 0) ^^^ (w.getD (w.length - 8) 0) ^^^
                (w.getD (w.length - 14) 0) ^^^ (w.getD (w.length - 16) 0)) 1]

/-- Expand the schedule `n` more words. -/
def sha1ScheduleAux : Nat → List Nat → List Nat
  | 0, w => w
  | n + 1, w => sha1ScheduleAux n (sha1ExtendStep w)

/-- SHA-1 compression of one 64-byte block into the five-word chaining state. -/
def sha1Compress (h : List Nat) (block : List Nat) : List Nat :=
  let w := sha1ScheduleAux 64 (bytesToWords block)
  let st := (List.range 80).foldl
    (fun (st : Nat × Nat × Nat × Nat × Nat) t =>
      (w32 (rotl32 st.1 5 + sha1F t st.2.1 st.2.2.1 st.2.2.2.1 + st.2.2.2.2 +
            sha1K t + w.getD t 0),
       st.1, rotl32 st.2.1 30, st.2.2.1, st.2.2.2.1))
    (h.getD 0 0, h.getD 1 0, h.getD 2 0, h.getD 3 0, h.getD 4 0)
  [w32 (h.getD 0 0 + st.1), w32 (h.getD 1 0 + st.2.1), w32 (h.getD 2 0 + st.2.2.1),
   w32 (h.getD 3 0 + st.2.2.2.1), w32 (h.getD 4 0 + st.2.2.2.2)]

/-- SHA-1 of a byte list, returning the 20-byte digest (hashlib
`sha1(msg).digest()`). -/
def sha1 (msg : List Nat) : List Nat :=
  let padded := sha1Pad msg
  let blocks := (List.range (padded.length / 64)).map
    (fun i => (padded.drop (64 * i)).take 64)
  let h := blocks.foldl sha1Compress
    [1732584193, 4023233417, 2562383102, 271733878, 3285377520]
  h.flatMap be32

/-- The lowercase hexadecimal alphabet used by hashlib `hexdigest()`. -/
def hexChars : List Char :=
  "0123456789abcdef".data

/-- Two lowercase hex characters of one byte. -/
def byteToHex (b : Nat) : List Char :=
  [hexChars.getD (b / 16) '0', hexChars.getD (b % 16) '0']

/-- Python `hexdigest()`: the lowercase hex rendering of the digest bytes. -/
def hexdigest (bs : List Nat) : String :=
  String.mk (bs.flatMap byteToHex)

/-- Python `str.upper()` restricted to its ASCII behaviour, which is all the
hasher ever applies it to. -/
def pyUpper (s : String) : String :=
  String.mk (s.data.map Char.toUpper)

/-- Embedding of `make_password` (app/core/hashers.py lines 5-15): on `None`
the Python function falls through the bare `return` and yields `None`;
otherwise it produces `("*" + sha1(sha1(raw.encode()).digest()).hexdigest()).upper()`. -/
def make_password : Option String → Option String
  | none => none
  | some raw => some (pyUpper ("*" ++ hexdigest (sha1 (sha1 (utf8Encode raw)))))

/-- Embedding of `validate_password` (app/core/hashers.py lines 18-27):
recompute the digest of `raw_password` and compare with Python `==`. -/
def validate_password (mysql_hash raw_password : Option String) : Bool :=
  mysql_hash == make_password raw_password

/-! ## Authority hierarchy (app/core/security.py)

`AuthorityLevel` is a Python `Enum` with six members whose values are the
level-name strings; `get_hierarchy_value` looks a level up in a string-keyed
dict with default `0`, and `can_access` compares the two ranks. -/

inductive AuthorityLevel where
  | PLAYABLE
  | PLAYER
  | LOW_WIZARD
  | HIGH_WIZARD
  | GOD
  | IMPLEMENTOR
deriving DecidableEq, Repr

/-- The `.value` of each `AuthorityLevel` member. -/
def AuthorityLevel.value : AuthorityLevel → String
  | .PLAYABLE => "PLAYABLE"
  | .PLAYER => "PLAYER"
  | .LOW_WIZARD => "LOW_WIZARD"
  | .HIGH_WIZARD => "HIGH_WIZARD"
  | .GOD => "GOD"
  | .IMPLEMENTOR => "IMPLEMENTOR"

/-- The `hierarchy_map` dict of `AuthorityLevel.get_hierarchy_value`
(app/core/security.py lines 33-40): string keys only. -/
def hierarchy_map : List (PyVal × Nat) :=
  [(.str "PLAYABLE", 0), (.str "PLAYER", 1), (.str "LOW_WIZARD", 2),
   (.str "HIGH_WIZARD", 3), (.str "GOD", 4), (.str "IMPLEMENTOR", 5)]

/-- Embedding of `AuthorityLevel.get_hierarchy_value` (app/core/security.py
lines 29-41): `hierarchy_map.get(level, 0)`. The argument may be any Python
value (the resolver can pass the integer `mAuthority`). -/
def get_hierarchy_value (level : PyVal) : Nat :=
  dictGet hierarchy_map level 0

/-- Embedding of `AuthorityLevel.can_access` (app/core/security.py lines
48-53): compare the two hierarchy values. -/
def can_access (user_level required_level : PyVal) : Bool :=
  get_hierarchy_value required_level ≤ get_hierarchy_value user_level

/-! ## Admin level resolver (app/models/common.py, app/crud/common.py)

The `gmlist` table is modelled as a list of rows; `filter(...).first()` is
`List.filter` followed by `head?`. -/

/-- Embedding of the `GMList` model (app/models/common.py): `mAuthority` is
an `Integer` column. -/
structure GMList where
  mID : Nat
  mAccount : String
  mName : Option String
  mContactIP : Option String
  mServerIP : Option String
  mAuthority : Int
deriving DecidableEq, Repr

/-- Embedding of `CRUDGMList.get_gm_by_account` (app/crud/common.py lines
13-15): `GMList.filter(GMList.mAccount == account_login).first()`. -/
def get_gm_by_account (db : List GMList) (account_login : String) : Option GMList :=
  (db.filter (fun g => g.mAccount == account_login)).head?

/-- Embedding of `CRUDGMList.is_admin` (app/crud/common.py lines 17-20). -/
def is_admin (db : List GMList) (account_login : String) : Bool :=
  (get_gm_by_account db account_login).isSome

/-- Embedding of `CRUDGMList.get_admin_level` (app/crud/common.py lines
22-26): the stored `mAuthority` (an int) when a record exists, the string
`AuthorityLevel.PLAYABLE.value` otherwise. -/
def get_admin_level (db : List GMList) (account_login : String) : PyVal :=
  match get_gm_by_account db account_login with
  | some gm_record => .int gm_record.mAuthority
  | none => .str AuthorityLevel.PLAYABLE.value

/-- Embedding of `CRUDGMList.has_authority_level` (app/crud/common.py lines
28-31). -/
def has_authority_level (db : List GMList) (account_login : String)
    (required_level : AuthorityLevel) : Bool :=
  can_access (get_admin_level db account_login) (.str required_level.value)

/-- Embedding of `CRUDGMList.get_authority_hierarchy` (app/crud/common.py
lines 33-36). -/
def get_authority_hierarchy (db : List GMList) (account_login : String) : Nat :=
  get_hierarchy_value (get_admin_level db account_login)

/-! ## Request guards (app/api/deps.py)

The guards either return the account, raise an `HTTPException`, or — where
the Python source references a name that does not exist — raise a Python
error. -/

/-- Embedding of the `Account` model (app/models/account.py): `status` is a
plain string column (default "OK"). -/
structure Account where
  id : Nat
  login : String
  password : String
  social_id : String
  email : String
  status : String
deriving DecidableEq, Repr

/-- Outcome of a guard: admit the account, raise an `HTTPException` with a
status code and detail, or fail with a Python-level error. -/
inductive GuardResult where
  | ok (account : Account)
  | httpError (code : Nat) (detail : String)
  | pythonError (msg : String)
deriving DecidableEq, Repr

/-- The members of `StatusType` (app/schemas/account.py lines 6-9), as
attribute-name/value pairs: `ACCEPT = "OK"` and `BANNED = "BANNED"`. -/
def statusTypeMembers : List (String × String) :=
  [("ACCEPT", "OK"), ("BANNED", "BANNED")]

/-- Python attribute lookup `StatusType.<name>`: `some value` for a member
name, `none` (AttributeError) otherwise. -/
def statusTypeAttr (name : String) : Option String :=
  (statusTypeMembers.find? (fun p => p.1 == name)).map (fun p => p.2)

/-- Embedding of `get_current_active_account` (app/api/deps.py lines 49-55):
the source evaluates `current_account.status != StatusType.OK`. `StatusType`
has no member named `OK` (its members are `ACCEPT` and `BANNED`), so the
attribute access raises before the comparison can happen; were the attribute
present, a non-matching status would raise the 400 "Cuenta inactiva" error
and a matching one would return the account unchanged. -/
def get_current_active_account (current_account : Account) : GuardResult :=
  match statusTypeAttr "OK" with
  | none => .pythonError "AttributeError: OK"
  | some ok =>
    if current_account.status ≠ ok then .httpError 400 "Cuenta inactiva"
    else .ok current_account

/-- Embedding of the checker produced by `require_gm_level` (app/api/deps.py
lines 72-85): resolve the admin level of the account login, reject with 403
and a message naming the required level and the current level when
`can_access` fails, otherwise return the account. -/
def require_gm_level (required_level : AuthorityLevel) (db : List GMList)
    (current_account : Account) : GuardResult :=
  let admin_level := get_admin_level db current_account.login
  if ¬ can_access admin_level (.str required_level.value) then
    .httpError 403 ("Se requiere nivel de autoridad " ++ required_level.value ++
      " o superior. Tu nivel actual es " ++ admin_level.pyStr)
  else .ok current_account

/-! ## Pagination metadata (app/api/routes/game.py, app/api/routes/guild.py)

Each listing endpoint computes `total_pages`, `has_next`, `has_prev` from
`total`, `per_page`, `page`. `list_players` and `list_guilds` use
`ceil(total / per_page)` directly; `list_downloads` guards it with
`if total > 0 else 1`. -/

/-- Exact ceiling division: the value of Python `math.ceil(total / per_page)`
for the integer ranges involved (`per_page` is validated to 1..100). -/
def ceilDivNat (total per_page : Nat) : Nat :=
  (total + per_page - 1) / per_page

/-- Pagination metadata returned alongside the rows. -/
structure PaginationMeta where
  total_pages : Nat
  has_next : Bool
  has_prev : Bool
deriving DecidableEq, Repr

/-- Embedding of the metadata computation of `list_players`
(app/api/routes/game.py lines 65-67): no zero-total guard. -/
def list_players_meta (total per_page page : Nat) : PaginationMeta :=
  { total_pages := ceilDivNat total per_page
    has_next := page < ceilDivNat total per_page
    has_prev := 1 < page }

/-- Embedding of the metadata computation of `list_guilds`
(app/api/routes/guild.py lines 29-31): no zero-total guard. -/
def list_guilds_meta (total per_page page : Nat) : PaginationMeta :=
  { total_pages := ceilDivNat total per_page
    has_next := page < ceilDivNat total per_page
    has_prev := 1 < page }

/-- Embedding of the metadata computation of `list_downloads`
(app/api/routes/game.py lines 155-157): `ceil(total / per_page) if total > 0
else 1`. -/
def list_downloads_meta (total per_page page : Nat) : PaginationMeta :=
  { total_pages := if 0 < total then ceilDivNat total per_page else 1
    has_next := page < (if 0 < total then ceilDivNat total per_page else 1)
    has_prev := 1 < page }

/-- The uppercase hexadecimal alphabet, image of hashlib hex digits under
`str.upper()`. -/
def upperHexChars : List Char :=
  "0123456789ABCDEF".data

/-! ## Helper lemmas -/

/-- Hex rendering doubles the byte count. -/
theorem length_flatMap_byteToHex (bs : List Nat) :
    (bs.flatMap byteToHex).length = 2 * bs.length := by
  induction bs with
  | nil => simp
  | cons b t ih =>
    rw [List.flatMap_cons, List.length_append, ih, List.length_cons]
    have hb : (byteToHex b).length = 2 := rfl
    omega

/-- Big-endian word rendering quadruples the word count. -/
theorem length_flatMap_be32 (l : List Nat) : (l.flatMap be32).length = 4 * l.length := by
  induction l with
  | nil => simp
  | cons b t ih =>
    rw [List.flatMap_cons, List.length_append, ih, List.length_cons]
    have hb : (be32 b).length = 4 := rfl
    omega

/-- The compression function returns a five-word state. -/
theorem sha1Compress_length (h block : List Nat) : (sha1Compress h block).length = 5 := by
  simp [sha1Compress]

/-- Folding the compression function over any block list keeps the state at
five words. -/
theorem foldl_sha1Compress_length (blocks : List (List Nat)) (init : List Nat)
    (h : init.length = 5) : (blocks.foldl sha1Compress init).length = 5 := by
  induction blocks generalizing init with
  | nil => simpa
  | cons b t ih => exact ih _ (sha1Compress_length init b)

/-- A SHA-1 digest is always 20 bytes. -/
theorem sha1_length (msg : List Nat) : (sha1 msg).length = 20 := by
  simp only [sha1]
  rw [length_flatMap_be32, foldl_sha1Compress_length]
  · rfl

/-- A hex digest has twice as many characters as the digest has bytes. -/
theorem hexdigest_length (bs : List Nat) : (hexdigest bs).length = 2 * bs.length :=
  length_flatMap_byteToHex bs

/-- Uppercasing preserves the length. -/
theorem pyUpper_length (s : String) : (pyUpper s).length = s.length := by
  show (s.data.map Char.toUpper).length = s.length
  rw [List.length_map]
  rfl

/-- Indexing the hex alphabet with any index lands in the hex alphabet, the
default being a hex digit itself. -/
theorem hexChars_getD_mem (i : Nat) : hexChars.getD i '0' ∈ hexChars := by
  rcases Nat.lt_or_ge i 16 with h | h
  · interval_cases i <;> decide
  · rw [List.getD_eq_default]
    · decide
    · exact h

/-- Uppercasing a lowercase hex digit gives an uppercase hex digit. -/
theorem toUpper_hex_mem (c : Char) (h : c ∈ hexChars) :
    Char.toUpper c ∈ upperHexChars := by
  fin_cases h <;> decide

/-- Every character of a hex digest comes from the hex alphabet. -/
theorem hexdigest_chars (bs : List Nat) : ∀ c ∈ (hexdigest bs).data, c ∈ hexChars := by
  intro c hc
  simp only [hexdigest, List.mem_flatMap] at hc
  obtain ⟨b, _, hmem⟩ := hc
  simp only [byteToHex, List.mem_cons, List.not_mem_nil, or_false] at hmem
  rcases hmem with h | h <;> subst h <;> exact hexChars_getD_mem _

/-- Uppercasing commutes with the leading star, which `str.upper()` leaves
unchanged. -/
theorem pyUpper_append_star (s : String) : pyUpper ("*" ++ s) = "*" ++ pyUpper s := by
  simp [pyUpper, String.data_append]
  rfl

/-- An integer key never hits the string-keyed `hierarchy_map`, so the
default `0` is returned. -/
theorem get_hierarchy_value_int (n : Int) : get_hierarchy_value (.int n) = 0 := by
  simp [get_hierarchy_value, dictGet, hierarchy_map, List.find?, pyEq]

set_option maxRecDepth 100000 in
/-- End-to-end check of the hasher embedding against the digest the legacy
scheme produces for the password "password". -/
theorem make_password_known_vector :
    make_password (some "password") = some "*2470C0C06DEE42FD1618BB99005ADCA2EC9D1E19" := by
  decide

/-! ## Claim theorems -/

/-- C1: for every pair of the six defined levels, `can_access(a, b)` holds
exactly when the hierarchy value of `a` is at least that of `b`; access is
reflexive, and any level admitted at a requirement is admitted at every
requirement of lower rank. -/
theorem can_access_spec :
    ∀ a b : AuthorityLevel,
      (can_access (.str a.value) (.str b.value) =
        decide (get_hierarchy_value (.str b.value) ≤ get_hierarchy_value (.str a.value))) ∧
      can_access (.str a.value) (.str a.value) = true ∧
      (∀ c : AuthorityLevel,
        can_access (.str a.value) (.str b.value) = true →
        get_hierarchy_value (.str c.value) ≤ get_hierarchy_value (.str b.value) →
        can_access (.str a.value) (.str c.value) = true) := by
  intro a b
  refine ⟨?_, ?_, ?_⟩
  · cases a <;> cases b <;> decide
  · cases a <;> decide
  · intro c
    cases a <;> cases b <;> cases c <;> decide

/-- Witness for C1: GOD can access a LOW_WIZARD requirement, hence also the
lower PLAYER requirement by monotonicity. -/
theorem can_access_spec_witness :
    can_access (.str AuthorityLevel.GOD.value) (.str AuthorityLevel.PLAYER.value) = true :=
  (can_access_spec .GOD .LOW_WIZARD).2.2 .PLAYER (by decide) (by decide)

/-- C2: a string that is not one of the six canonical level names gets
hierarchy value 0, and the six canonical names map to 0 through 5. -/
theorem get_hierarchy_value_spec :
    (∀ s : String,
      s ∉ ["PLAYABLE", "PLAYER", "LOW_WIZARD", "HIGH_WIZARD", "GOD", "IMPLEMENTOR"] →
      get_hierarchy_value (.str s) = 0) ∧
    get_hierarchy_value (.str "PLAYABLE") = 0 ∧
    get_hierarchy_value (.str "PLAYER") = 1 ∧
    get_hierarchy_value (.str "LOW_WIZARD") = 2 ∧
    get_hierarchy_value (.str "HIGH_WIZARD") = 3 ∧
    get_hierarchy_value (.str "GOD") = 4 ∧
    get_hierarchy_value (.str "IMPLEMENTOR") = 5 := by
  refine ⟨?_, by decide, by decide, by decide, by decide, by decide, by decide⟩
  intro s h
  simp only [List.mem_cons, List.not_mem_nil, or_false, not_or] at h
  obtain ⟨h1, h2, h3, h4, h5, h6⟩ := h
  have e1 : ("PLAYABLE" == s) = false := by simp; exact fun hx => h1 hx.symm
  have e2 : ("PLAYER" == s) = false := by simp; exact fun hx => h2 hx.symm
  have e3 : ("LOW_WIZARD" == s) = false := by simp; exact fun hx => h3 hx.symm
  have e4 : ("HIGH_WIZARD" == s) = false := by simp; exact fun hx => h4 hx.symm
  have e5 : ("GOD" == s) = false := by simp; exact fun hx => h5 hx.symm
  have e6 : ("IMPLEMENTOR" == s) = false := by simp; exact fun hx => h6 hx.symm
  simp [get_hierarchy_value, dictGet, hierarchy_map, List.find?, pyEq,
    e1, e2, e3, e4, e5, e6]

/-- Witness for C2: the unknown level name ADMIN resolves to rank 0. -/
theorem get_hierarchy_value_spec_witness :
    get_hierarchy_value (.str "ADMIN") = 0 :=
  get_hierarchy_value_spec.1 "ADMIN" (by decide)

/-- C3: `get_admin_level` returns the stored `mAuthority` value verbatim when
a GMList record with the given login exists, and the string PLAYABLE when
none does; the no-record case is a normal return. -/
theorem get_admin_level_spec :
    ∀ (db : List GMList) (login : String),
      (∀ r : GMList, get_gm_by_account db login = some r →
        get_admin_level db login = .int r.mAuthority) ∧
      (get_gm_by_account db login = none →
        get_admin_level db login = .str "PLAYABLE") := by
  intro db login
  constructor
  · intro r hr
    simp [get_admin_level, hr]
  · intro h
    simp [get_admin_level, h, AuthorityLevel.value]

/-- Witness for C3: a login with a record resolves to its stored authority
5, and a login without a record resolves to PLAYABLE. -/
theorem get_admin_level_spec_witness :
    get_admin_level [⟨1, "gm_bob", none, none, none, 5⟩] "gm_bob" = .int 5 ∧
    get_admin_level [⟨1, "gm_bob", none, none, none, 5⟩] "alice" = .str "PLAYABLE" :=
  ⟨(get_admin_level_spec [⟨1, "gm_bob", none, none, none, 5⟩] "gm_bob").1
      ⟨1, "gm_bob", none, none, none, 5⟩ (by decide),
   (get_admin_level_spec [⟨1, "gm_bob", none, none, none, 5⟩] "alice").2 (by decide)⟩

/-- C4: a login with a GMList record resolves to the integer `mAuthority`,
which is never a key of the string-keyed hierarchy map, so its hierarchy
value is 0 and both `has_authority_level` and the `require_gm_level` guard
reject it for every required level of rank 1 or higher, regardless of the
stored authority value. -/
theorem gm_int_authority_locked_out :
    ∀ (db : List GMList) (login : String) (r : GMList),
      get_gm_by_account db login = some r →
      get_admin_level db login = .int r.mAuthority ∧
      get_authority_hierarchy db login = 0 ∧
      (∀ L : AuthorityLevel, 1 ≤ get_hierarchy_value (.str L.value) →
        has_authority_level db login L = false) ∧
      (∀ (L : AuthorityLevel) (acct : Account), acct.login = login →
        1 ≤ get_hierarchy_value (.str L.value) →
        require_gm_level L db acct = .httpError 403
          ("Se requiere nivel de autoridad " ++ L.value ++
           " o superior. Tu nivel actual es " ++ toString r.mAuthority)) := by
  intro db login r hr
  have hlevel : get_admin_level db login = .int r.mAuthority := by
    simp [get_admin_level, hr]
  refine ⟨hlevel, ?_, ?_, ?_⟩
  · simp [get_authority_hierarchy, hlevel, get_hierarchy_value_int]
  · intro L hL
    simp only [has_authority_level, hlevel, can_access, get_hierarchy_value_int,
      decide_eq_false_iff_not]
    omega
  · intro L acct hacct hL
    have hcan : can_access (.int r.mAuthority) (.str L.value) = false := by
      simp only [can_access, get_hierarchy_value_int, decide_eq_false_iff_not]
      omega
    simp [require_gm_level, hacct, hlevel, hcan, PyVal.pyStr]

/-- Witness for C4: gm_bob holds the stored authority 5 yet resolves to
hierarchy 0 and is rejected by an IMPLEMENTOR-level guard. -/
theorem gm_int_authority_locked_out_witness :
    get_authority_hierarchy [⟨1, "gm_bob", none, none, none, 5⟩] "gm_bob" = 0 ∧
    has_authority_level [⟨1, "gm_bob", none, none, none, 5⟩] "gm_bob"
      .IMPLEMENTOR = false ∧
    require_gm_level .IMPLEMENTOR [⟨1, "gm_bob", none, none, none, 5⟩]
      ⟨7, "gm_bob", "", "", "", "OK"⟩ = .httpError 403
      "Se requiere nivel de autoridad IMPLEMENTOR o superior. Tu nivel actual es 5" :=
  ⟨(gm_int_authority_locked_out [⟨1, "gm_bob", none, none, none, 5⟩] "gm_bob"
      ⟨1, "gm_bob", none, none, none, 5⟩ (by decide)).2.1,
   (gm_int_authority_locked_out [⟨1, "gm_bob", none, none, none, 5⟩] "gm_bob"
      ⟨1, "gm_bob", none, none, none, 5⟩ (by decide)).2.2.1 .IMPLEMENTOR (by decide),
   (gm_int_authority_locked_out [⟨1, "gm_bob", none, none, none, 5⟩] "gm_bob"
      ⟨1, "gm_bob", none, none, none, 5⟩ (by decide)).2.2.2 .IMPLEMENTOR
      ⟨7, "gm_bob", "", "", "", "OK"⟩ rfl (by decide)⟩

/-- C5: verifying a freshly produced digest against the same raw password
always succeeds, since `validate_password` recomputes the digest and compares
for exact equality. -/
theorem validate_password_roundtrip :
    ∀ p : String, validate_password (make_password (some p)) (some p) = true := by
  intro p
  simp [validate_password]

/-- C6: for a non-null raw password the digest is the star marker followed by
the uppercase hex rendering of the double SHA-1 of the UTF-8 bytes, a
41-character string starting with the star whose remaining characters are
uppercase hex digits; for a null raw password no digest is produced. -/
theorem make_password_format :
    ∀ p : String,
      make_password (some p) =
        some ("*" ++ pyUpper (hexdigest (sha1 (sha1 (utf8Encode p))))) ∧
      ("*" ++ pyUpper (hexdigest (sha1 (sha1 (utf8Encode p))))).length = 41 ∧
      ("*" ++ pyUpper (hexdigest (sha1 (sha1 (utf8Encode p))))).data.head? = some '*' ∧
      ((pyUpper (hexdigest (sha1 (sha1 (utf8Encode p))))).data.all
        (fun c => decide (c ∈ upperHexChars))) = true ∧
      make_password none = none := by
  intro p
  refine ⟨?_, ?_, ?_, ?_, rfl⟩
  · simp [make_password, pyUpper_append_star]
  · rw [String.length_append, pyUpper_length, hexdigest_length, sha1_length]
    decide
  · simp [String.data_append]
  · rw [List.all_eq_true]
    intro c hc
    simp only [pyUpper, List.mem_map] at hc
    obtain ⟨c0, hc0, rfl⟩ := hc
    simp only [decide_eq_true_eq]
    exact toUpper_hex_mem c0 (hexdigest_chars _ c0 hc0)

/-- C7: the active-account guard never reaches its status comparison. The
source evaluates `StatusType.OK`, but `StatusType` has no member named `OK`
(its members are `ACCEPT`, whose value is "OK", and `BANNED`), so every
request — including one whose account status is "OK" — fails with an
AttributeError instead of either admitting the account or raising the
inactive-account error. -/
theorem get_current_active_account_always_raises :
    ∀ acct : Account,
      get_current_active_account acct = .pythonError "AttributeError: OK" := by
  intro acct
  rfl

/-- C8: the require_gm_level guard rejects with 403 exactly when `can_access`
fails for the resolved level, its message naming both the required level and
the resolved current level; when `can_access` holds it returns the account
unchanged. -/
theorem require_gm_level_spec :
    ∀ (required : AuthorityLevel) (db : List GMList) (acct : Account),
      (can_access (get_admin_level db acct.login) (.str required.value) = false →
        require_gm_level required db acct = .httpError 403
          ("Se requiere nivel de autoridad " ++ required.value ++
           " o superior. Tu nivel actual es " ++
           (get_admin_level db acct.login).pyStr)) ∧
      (can_access (get_admin_level db acct.login) (.str required.value) = true →
        require_gm_level required db acct = .ok acct) := by
  intro required db acct
  constructor <;> intro h <;> simp [require_gm_level, h]

/-- Witness for C8: gm_bob (stored authority 5) is rejected by the
IMPLEMENTOR guard with the disclosing message, while alice passes a
PLAYABLE-level guard and is returned. -/
theorem require_gm_level_spec_witness :
    require_gm_level .IMPLEMENTOR [⟨1, "gm_bob", none, none, none, 5⟩]
      ⟨7, "gm_bob", "", "", "", "OK"⟩ = .httpError 403
      ("Se requiere nivel de autoridad " ++ AuthorityLevel.IMPLEMENTOR.value ++
       " o superior. Tu nivel actual es " ++
       (get_admin_level [⟨1, "gm_bob", none, none, none, 5⟩] "gm_bob").pyStr) ∧
    require_gm_level .PLAYABLE [] ⟨8, "alice", "", "", "", "OK"⟩ =
      .ok ⟨8, "alice", "", "", "", "OK"⟩ :=
  ⟨(require_gm_level_spec .IMPLEMENTOR [⟨1, "gm_bob", none, none, none, 5⟩]
      ⟨7, "gm_bob", "", "", "", "OK"⟩).1 (by decide),
   (require_gm_level_spec .PLAYABLE [] ⟨8, "alice", "", "", "", "OK"⟩).2 (by decide)⟩

/-- C9 counterexample: the claim asserts every paginated listing endpoint
yields total_pages = 1 at page 1 with total 0, but the players listing
computes ceil(0 / 20) = 0 there. -/
theorem list_players_zero_total_counterexample :
    (list_players_meta 0 20 1).total_pages = 0 ∧
    (list_players_meta 0 20 1).total_pages ≠ 1 := by decide

/-- C9 amended: with total 45 and per_page 20 all three cited listings yield
total_pages 3, and at page 3 has_next is false and has_prev true; at page 1
with total 0 the downloads listing yields total_pages 1, while the players
and guilds listings yield 0. -/
theorem pagination_meta_amended :
    (list_players_meta 45 20 1).total_pages = 3 ∧
    (list_guilds_meta 45 20 1).total_pages = 3 ∧
    (list_downloads_meta 45 20 1).total_pages = 3 ∧
    (list_players_meta 45 20 3).has_next = false ∧
    (list_players_meta 45 20 3).has_prev = true ∧
    (list_guilds_meta 45 20 3).has_next = false ∧
    (list_guilds_meta 45 20 3).has_prev = true ∧
    (list_downloads_meta 45 20 3).has_next = false ∧
    (list_downloads_meta 45 20 3).has_prev = true ∧
    (list_downloads_meta 0 20 1).total_pages = 1 ∧
    (list_players_meta 0 20 1).total_pages = 0 ∧
    (list_guilds_meta 0 20 1).total_pages = 0 := by decide

/-- C10: verifying against an absent raw password succeeds exactly for an
absent stored digest — make_password of None is None and the comparison is
plain equality — so None verifies against None and any present digest does
not. -/
theorem validate_password_none :
    validate_password none none = true ∧
    (∀ s : String, validate_password (some s) none = false) := by
  refine ⟨by decide, ?_⟩
  intro s
  simp [validate_password, make_password]
